import Mathlib

/-!
# AceSPI: software SPI transmitters, shallow embedding

Embedding of the two software-SPI tiers of the AceSPI library:

* `SimpleSpiInterface` (src/src/ace_spi/SimpleSpiInterface.h): runtime pin
  numbers, bit-banging delegated to the Arduino core function `shiftOut`.
* `SimpleSpiFastInterface` (src/unnamed/part_004): compile-time pin numbers,
  bit-banging done by the private member `shiftOutFast`.

Pin-level effects are modelled as a trace of `Event`s (pin-level writes and
pin-mode changes), in the order the C++ code emits them.  Pin numbers
(`uint8_t` in the source) are modelled as `Nat`; byte and word arguments are
`Nat` with the width constraint carried as a hypothesis where it matters.
-/

/-- A digital logic level (Arduino `LOW` / `HIGH`). -/
inductive Level where
  | low
  | high
  deriving DecidableEq, Repr

/-- A pin direction (Arduino `INPUT` / `OUTPUT`). -/
inductive PinDir where
  | input
  | output
  deriving DecidableEq, Repr

/-- One observable pin operation: a level write (`digitalWrite` /
`digitalWriteFast`) or a mode change (`pinMode` / `pinModeFast`). -/
inductive Event where
  | write (pin : Nat) (lvl : Level)
  | setMode (pin : Nat) (dir : PinDir)
  deriving DecidableEq, Repr

/-- One clock pulse of the MSB-first shift-out sequence: drive clock low,
set the data line to the bit value, drive clock high. -/
def clockPulse (clockPin dataPin : Nat) (b : Bool) : List Event :=
  [Event.write clockPin Level.low,
   Event.write dataPin (if b then Level.high else Level.low),
   Event.write clockPin Level.high]

/-- The 8 MSB-first clock pulses for a byte: pulse `i` (0..7) carries bit
`7 - i` of `value`. -/
def msbFirstPulses (clockPin dataPin value : Nat) : List Event :=
  ((List.range 8).map fun i => clockPulse clockPin dataPin (value.testBit (7 - i))).flatten

/-- Modelled from the spec: the Arduino core function
`shiftOut(dataPin, clockPin, MSBFIRST, value)` that `SimpleSpiInterface`
delegates to is not part of this repository.  The spec describes the
sequence: for each of the 8 bits, in order from bit 7 down to bit 0,
drive clock low, set the data line to the bit's value (high if set, low if
clear), drive clock high. -/
def shiftOut (dataPin clockPin value : Nat) : List Event :=
  msbFirstPulses clockPin dataPin value

/-- `SimpleSpiInterface` (runtime-pin tier): an immutable triple of pin
numbers fixed by the constructor. -/
structure SimpleSpiInterface where
  mLatchPin : Nat
  mDataPin : Nat
  mClockPin : Nat
  deriving DecidableEq, Repr

namespace SimpleSpiInterface

/-- `begin()`: `pinMode(mLatchPin, OUTPUT); pinMode(mDataPin, OUTPUT);
pinMode(mClockPin, OUTPUT);`. -/
def begin (s : SimpleSpiInterface) : List Event :=
  [Event.setMode s.mLatchPin PinDir.output,
   Event.setMode s.mDataPin PinDir.output,
   Event.setMode s.mClockPin PinDir.output]

/-- `end()` (named `endOp` here, `end` is reserved in Lean): `pinMode(..., INPUT)`
on all three pins. -/
def endOp (s : SimpleSpiInterface) : List Event :=
  [Event.setMode s.mLatchPin PinDir.input,
   Event.setMode s.mDataPin PinDir.input,
   Event.setMode s.mClockPin PinDir.input]

/-- `beginTransaction()`: `digitalWrite(mLatchPin, LOW);`. -/
def beginTransaction (s : SimpleSpiInterface) : List Event :=
  [Event.write s.mLatchPin Level.low]

/-- `endTransaction()`: `digitalWrite(mLatchPin, HIGH);`. -/
def endTransaction (s : SimpleSpiInterface) : List Event :=
  [Event.write s.mLatchPin Level.high]

/-- `transfer(value)`: `shiftOut(mDataPin, mClockPin, MSBFIRST, value);`. -/
def transfer (s : SimpleSpiInterface) (value : Nat) : List Event :=
  shiftOut s.mDataPin s.mClockPin value

/-- `transfer16(value)`: extract `msb = (value & 0xff00) >> 8` and
`lsb = value & 0xff`, then `shiftOut` each. -/
def transfer16 (s : SimpleSpiInterface) (value : Nat) : List Event :=
  let msb := (value &&& 0xff00) >>> 8
  let lsb := value &&& 0xff
  shiftOut s.mDataPin s.mClockPin msb ++ shiftOut s.mDataPin s.mClockPin lsb

/-- `send8(value)`: `beginTransaction(); transfer(value); endTransaction();`. -/
def send8 (s : SimpleSpiInterface) (value : Nat) : List Event :=
  s.beginTransaction ++ s.transfer value ++ s.endTransaction

/-- One-argument `send16(value)`:
`beginTransaction(); transfer16(value); endTransaction();`. -/
def send16 (s : SimpleSpiInterface) (value : Nat) : List Event :=
  s.beginTransaction ++ s.transfer16 value ++ s.endTransaction

/-- Two-argument `send16(msb, lsb)`: `beginTransaction();` then `shiftOut`
of `msb` and of `lsb`, then `endTransaction();`. -/
def send16two (s : SimpleSpiInterface) (msb lsb : Nat) : List Event :=
  s.beginTransaction
    ++ shiftOut s.mDataPin s.mClockPin msb
    ++ shiftOut s.mDataPin s.mClockPin lsb
    ++ s.endTransaction

end SimpleSpiInterface

/-- `SimpleSpiFastInterface<T_LATCH_PIN, T_DATA_PIN, T_CLOCK_PIN>`
(compile-time-pin tier): the template parameters are modelled as fields of
a parameter record. -/
structure SimpleSpiFastInterface where
  latchPinT : Nat
  dataPinT : Nat
  clockPinT : Nat
  deriving DecidableEq, Repr

namespace SimpleSpiFastInterface

/-- The loop body of `shiftOutFast`: `for (uint8_t i = 0; i < 8; i++)` with
`mask` starting at `0x80` and `mask >>= 1` each iteration; each iteration
writes clock LOW, writes data HIGH if `output & mask` is non-zero else LOW,
then writes clock HIGH.  The first `Nat` is the remaining iteration count,
the second the current mask. -/
def shiftOutFastLoop (clockPin dataPin output : Nat) : Nat → Nat → List Event
  | 0, _ => []
  | n + 1, mask =>
      Event.write clockPin Level.low
        :: Event.write dataPin
            (if output &&& mask ≠ 0 then Level.high else Level.low)
        :: Event.write clockPin Level.high
        :: shiftOutFastLoop clockPin dataPin output n (mask >>> 1)

/-- `shiftOutFast(output)`: 8 iterations starting at `mask = 0x80`. -/
def shiftOutFast (f : SimpleSpiFastInterface) (output : Nat) : List Event :=
  shiftOutFastLoop f.clockPinT f.dataPinT output 8 0x80

/-- `begin()`: `pinModeFast(..., OUTPUT)` on all three pins. -/
def begin (f : SimpleSpiFastInterface) : List Event :=
  [Event.setMode f.latchPinT PinDir.output,
   Event.setMode f.dataPinT PinDir.output,
   Event.setMode f.clockPinT PinDir.output]

/-- `end()` (named `endOp` here): `pinModeFast(..., INPUT)` on all three pins. -/
def endOp (f : SimpleSpiFastInterface) : List Event :=
  [Event.setMode f.latchPinT PinDir.input,
   Event.setMode f.dataPinT PinDir.input,
   Event.setMode f.clockPinT PinDir.input]

/-- `beginTransaction()`: `digitalWriteFast(T_LATCH_PIN, LOW);`. -/
def beginTransaction (f : SimpleSpiFastInterface) : List Event :=
  [Event.write f.latchPinT Level.low]

/-- `endTransaction()`: `digitalWriteFast(T_LATCH_PIN, HIGH);`. -/
def endTransaction (f : SimpleSpiFastInterface) : List Event :=
  [Event.write f.latchPinT Level.high]

/-- `transfer(value)`: `shiftOutFast(value);`. -/
def transfer (f : SimpleSpiFastInterface) (value : Nat) : List Event :=
  f.shiftOutFast value

/-- `transfer16(value)`: extract `msb = (value & 0xff00) >> 8` and
`lsb = value & 0xff`, then `shiftOutFast` each. -/
def transfer16 (f : SimpleSpiFastInterface) (value : Nat) : List Event :=
  let msb := (value &&& 0xff00) >>> 8
  let lsb := value &&& 0xff
  f.shiftOutFast msb ++ f.shiftOutFast lsb

/-- `send8(value)`: `beginTransaction(); transfer(value); endTransaction();`. -/
def send8 (f : SimpleSpiFastInterface) (value : Nat) : List Event :=
  f.beginTransaction ++ f.transfer value ++ f.endTransaction

/-- One-argument `send16(value)`:
`beginTransaction(); transfer16(value); endTransaction();`. -/
def send16 (f : SimpleSpiFastInterface) (value : Nat) : List Event :=
  f.beginTransaction ++ f.transfer16 value ++ f.endTransaction

/-- Two-argument `send16(msb, lsb)`: `beginTransaction();` then
`shiftOutFast` of `msb` and of `lsb`, then `endTransaction();`. -/
def send16two (f : SimpleSpiFastInterface) (msb lsb : Nat) : List Event :=
  f.beginTransaction
    ++ f.shiftOutFast msb
    ++ f.shiftOutFast lsb
    ++ f.endTransaction

end SimpleSpiFastInterface

/-- Whether a single `& mask` test with `mask = 2 ^ k` is non-zero is the
`k`-th bit of the operand. -/
lemma and_mask_ne_zero_iff (v k : Nat) : (v &&& 2 ^ k ≠ 0) ↔ v.testBit k := by
  rw [Nat.and_two_pow]
  rcases h : v.testBit k <;> simp [h, Nat.pos_pow_of_pos, Nat.pos_iff_ne_zero]

/-- `shiftOutFast` emits exactly the 8 MSB-first clock pulses described by
`msbFirstPulses`: the mask sequence `0x80, 0x40, ..., 0x01` selects bits
7 down to 0. -/
lemma shiftOutFast_eq_msbFirstPulses (f : SimpleSpiFastInterface) (v : Nat) :
    f.shiftOutFast v = msbFirstPulses f.clockPinT f.dataPinT v := by
  have h7 := and_mask_ne_zero_iff v 7
  have h6 := and_mask_ne_zero_iff v 6
  have h5 := and_mask_ne_zero_iff v 5
  have h4 := and_mask_ne_zero_iff v 4
  have h3 := and_mask_ne_zero_iff v 3
  have h2 := and_mask_ne_zero_iff v 2
  have h1 := and_mask_ne_zero_iff v 1
  have h0 := and_mask_ne_zero_iff v 0
  norm_num at h7 h6 h5 h4 h3 h2 h1 h0
  simp [SimpleSpiFastInterface.shiftOutFast, SimpleSpiFastInterface.shiftOutFastLoop,
    msbFirstPulses, clockPulse, List.range_succ, h7, h6, h5, h4, h3, h2, h1, h0]

/-!
## Pin state

`PinState` models the direction and level registers of the GPIO pins; a
trace of events updates it write by write.
-/

/-- The state of the GPIO pins: a level and a direction per pin number. -/
@[ext]
structure PinState where
  level : Nat → Level
  mode : Nat → PinDir

/-- Apply one event to the pin state. -/
def applyEvent (ps : PinState) : Event → PinState
  | Event.write p l => { ps with level := fun q => if q = p then l else ps.level q }
  | Event.setMode p d => { ps with mode := fun q => if q = p then d else ps.mode q }

/-- Apply a trace of events, left to right. -/
def applyTrace (ps : PinState) : List Event → PinState
  | [] => ps
  | e :: tr => applyTrace (applyEvent ps e) tr

/-- The level of the most recent write to pin `p` in a trace, if any. -/
def lastWriteTo (p : Nat) : List Event → Option Level
  | [] => none
  | e :: tr =>
      match lastWriteTo p tr with
      | some l => some l
      | none =>
          match e with
          | Event.write q l => if q = p then some l else none
          | Event.setMode _ _ => none

lemma applyTrace_append (ps : PinState) (a b : List Event) :
    applyTrace ps (a ++ b) = applyTrace (applyTrace ps a) b := by
  induction a generalizing ps with
  | nil => rfl
  | cons e tr ih => simp [applyTrace, ih]

lemma lastWriteTo_append_some (p : Nat) (a b : List Event) (l : Level)
    (h : lastWriteTo p b = some l) : lastWriteTo p (a ++ b) = some l := by
  induction a with
  | nil => simpa using h
  | cons e tr ih => simp [lastWriteTo, ih]

lemma lastWriteTo_append_none (p : Nat) (a b : List Event)
    (h : lastWriteTo p b = none) : lastWriteTo p (a ++ b) = lastWriteTo p a := by
  induction a with
  | nil => simpa using h
  | cons e tr ih => simp [lastWriteTo, ih]

/-- A trace with no mode-change event leaves every pin's direction alone. -/
lemma applyTrace_mode_of_writes (tr : List Event)
    (h : ∀ e ∈ tr, ∀ p d, e ≠ Event.setMode p d) (ps : PinState) (q : Nat) :
    (applyTrace ps tr).mode q = ps.mode q := by
  induction tr generalizing ps with
  | nil => rfl
  | cons e rest ih =>
      have he := h e (by simp)
      have hrest : ∀ e ∈ rest, ∀ p d, e ≠ Event.setMode p d :=
        fun e hmem => h e (by simp [hmem])
      cases e with
      | write p l => simp [applyTrace, applyEvent, ih hrest]
      | setMode p d => exact absurd rfl (he p d)

/-- A trace that never writes pin `q` leaves the level of `q` alone. -/
lemma applyTrace_level_of_not_written (tr : List Event) (q : Nat)
    (h : ∀ l, Event.write q l ∉ tr) (ps : PinState) :
    (applyTrace ps tr).level q = ps.level q := by
  induction tr generalizing ps with
  | nil => rfl
  | cons e rest ih =>
      have hrest : ∀ l, Event.write q l ∉ rest := by
        intro l hmem
        exact h l (by simp [hmem])
      cases e with
      | write p l =>
          have hqp : q ≠ p := by
            intro hqp
            exact h l (by simp [hqp])
          simp [applyTrace, applyEvent, ih hrest, hqp]
      | setMode p d => simp [applyTrace, applyEvent, ih hrest]

/-- Every event of a byte shift-out is a level write to the data pin or to
the clock pin. -/
lemma mem_msbFirstPulses (clockPin dataPin v : Nat) (e : Event)
    (h : e ∈ msbFirstPulses clockPin dataPin v) :
    ∃ l, e = Event.write dataPin l ∨ e = Event.write clockPin l := by
  simp only [msbFirstPulses, List.mem_flatten, List.mem_map] at h
  obtain ⟨_, ⟨i, _, rfl⟩, hmem⟩ := h
  simp only [clockPulse, List.mem_cons, List.not_mem_nil, or_false] at hmem
  rcases hmem with rfl | rfl | rfl
  · exact ⟨Level.low, Or.inr rfl⟩
  · exact ⟨_, Or.inl rfl⟩
  · exact ⟨Level.high, Or.inr rfl⟩

/-- The most recent clock write in a single clock pulse is HIGH (its last
event), whatever the data pin. -/
lemma lastWriteTo_clockPulse (clockPin dataPin : Nat) (b : Bool) :
    lastWriteTo clockPin (clockPulse clockPin dataPin b) = some Level.high := by
  cases b <;> simp [clockPulse, lastWriteTo]

/-- The most recent clock write in a byte shift-out is HIGH. -/
lemma lastWriteTo_clock_msbFirstPulses (clockPin dataPin v : Nat) :
    lastWriteTo clockPin (msbFirstPulses clockPin dataPin v) = some Level.high := by
  have h8 : msbFirstPulses clockPin dataPin v
      = ((List.range 7).map fun i => clockPulse clockPin dataPin (v.testBit (7 - i))).flatten
        ++ clockPulse clockPin dataPin (v.testBit 0) := by
    simp [msbFirstPulses, List.range_succ]
  rw [h8]
  exact lastWriteTo_append_some _ _ _ _ (lastWriteTo_clockPulse _ _ _)

/-!
## The common operation set

Both tiers expose the same operations; `SpiOp` names one call with its
arguments, and `opTrace` gives the event trace each tier emits for it.
-/

/-- One call of the common operation set shared by both tiers. -/
inductive SpiOp where
  | beginOp
  | endO
  | beginTxn
  | endTxn
  | transferOp (value : Nat)
  | transfer16Op (value : Nat)
  | send8Op (value : Nat)
  | send16Op (value : Nat)
  | send16twoOp (msb lsb : Nat)
  deriving DecidableEq, Repr

/-- Trace of one operation of the runtime-pin tier. -/
def SimpleSpiInterface.opTrace (s : SimpleSpiInterface) : SpiOp → List Event
  | SpiOp.beginOp => s.begin
  | SpiOp.endO => s.endOp
  | SpiOp.beginTxn => s.beginTransaction
  | SpiOp.endTxn => s.endTransaction
  | SpiOp.transferOp v => s.transfer v
  | SpiOp.transfer16Op v => s.transfer16 v
  | SpiOp.send8Op v => s.send8 v
  | SpiOp.send16Op v => s.send16 v
  | SpiOp.send16twoOp msb lsb => s.send16two msb lsb

/-- Trace of one operation of the compile-time-pin tier. -/
def SimpleSpiFastInterface.opTrace (f : SimpleSpiFastInterface) : SpiOp → List Event
  | SpiOp.beginOp => f.begin
  | SpiOp.endO => f.endOp
  | SpiOp.beginTxn => f.beginTransaction
  | SpiOp.endTxn => f.endTransaction
  | SpiOp.transferOp v => f.transfer v
  | SpiOp.transfer16Op v => f.transfer16 v
  | SpiOp.send8Op v => f.send8 v
  | SpiOp.send16Op v => f.send16 v
  | SpiOp.send16twoOp msb lsb => f.send16two msb lsb

/-- A transmitter instance together with the pin hardware it drives.  All
member functions of `SimpleSpiInterface` are `const` and its fields are
`const`; running an operation updates the pins and returns the object as the
method body leaves it. -/
structure Machine where
  spi : SimpleSpiInterface
  pins : PinState

/-- Run one operation: emit its trace, apply it to the pins, and keep the
transmitter object as the (const) method body leaves it. -/
def Machine.runOp (m : Machine) (op : SpiOp) : Machine × List Event :=
  let tr := m.spi.opTrace op
  ({ spi := m.spi, pins := applyTrace m.pins tr }, tr)

/-!
## Byte-extraction arithmetic
-/

lemma testBit_ff (i : Nat) : Nat.testBit 0xff i = decide (i < 8) := by
  have h : (0xff : Nat) = 2 ^ 8 - 1 := by norm_num
  rw [h, Nat.testBit_two_pow_sub_one]

lemma testBit_ff00 (i : Nat) :
    Nat.testBit 0xff00 i = (decide (8 ≤ i) && decide (i - 8 < 8)) := by
  have h : (0xff00 : Nat) = 0xff <<< 8 := by norm_num [Nat.shiftLeft_eq]
  rw [h, Nat.testBit_shiftLeft, testBit_ff]

/-- `(x & 0xff00) >> 8` masks after the shift just as well. -/
lemma and_ff00_shiftRight (x : Nat) : (x &&& 0xff00) >>> 8 = (x >>> 8) &&& 0xff := by
  apply Nat.eq_of_testBit_eq
  intro i
  simp [Nat.testBit_and, Nat.testBit_shiftRight, testBit_ff00, testBit_ff,
    Nat.add_sub_cancel_left]

/-- For a 16-bit value, `(v & 0xff00) >> 8` is just `v >> 8`. -/
lemma msb_extract_eq (v : Nat) (hv : v < 65536) : (v &&& 0xff00) >>> 8 = v >>> 8 := by
  rw [and_ff00_shiftRight]
  have h : (0xff : Nat) = 2 ^ 8 - 1 := by norm_num
  rw [h, Nat.and_pow_two_sub_one_eq_mod]
  apply Nat.mod_eq_of_lt
  rw [Nat.shiftRight_eq_div_pow]
  omega

/-- Recombining two bytes and re-extracting the high byte is the identity. -/
lemma or_extract_msb (msb lsb : Nat) (hm : msb < 256) (hl : lsb < 256) :
    ((msb <<< 8 ||| lsb) &&& 0xff00) >>> 8 = msb := by
  rw [and_ff00_shiftRight]
  apply Nat.eq_of_testBit_eq
  intro i
  have hlsb : lsb.testBit (8 + i) = false :=
    Nat.testBit_lt_two_pow (lt_of_lt_of_le hl (by
      calc (256 : Nat) = 2 ^ 8 := by norm_num
        _ ≤ 2 ^ (8 + i) := Nat.pow_le_pow_right (by norm_num) (by omega)))
  by_cases hi : i < 8
  · simp [Nat.testBit_and, Nat.testBit_shiftRight, Nat.testBit_or,
      Nat.testBit_shiftLeft, testBit_ff, hlsb, Nat.add_sub_cancel_left, hi]
  · have hmsb : msb.testBit i = false :=
      Nat.testBit_lt_two_pow (lt_of_lt_of_le hm (by
        calc (256 : Nat) = 2 ^ 8 := by norm_num
          _ ≤ 2 ^ i := Nat.pow_le_pow_right (by norm_num) (by omega)))
    simp [Nat.testBit_and, Nat.testBit_shiftRight, testBit_ff, hi, hmsb]

/-- Recombining two bytes and re-extracting the low byte is the identity. -/
lemma or_extract_lsb (msb lsb : Nat) (hl : lsb < 256) :
    (msb <<< 8 ||| lsb) &&& 0xff = lsb := by
  apply Nat.eq_of_testBit_eq
  intro i
  by_cases hi : i < 8
  · have h8 : ¬ (8 ≤ i) := by omega
    simp [Nat.testBit_and, Nat.testBit_or, Nat.testBit_shiftLeft, testBit_ff, hi, h8]
  · have hlsb : lsb.testBit i = false :=
      Nat.testBit_lt_two_pow (lt_of_lt_of_le hl (by
        calc (256 : Nat) = 2 ^ 8 := by norm_num
          _ ≤ 2 ^ i := Nat.pow_le_pow_right (by norm_num) (by omega)))
    simp [Nat.testBit_and, Nat.testBit_or, Nat.testBit_shiftLeft, testBit_ff, hi, hlsb]

/-!
## Claims
-/

/-- C1: for every 8-bit value `v`, the pin-write sequence emitted by the
software-SPI transfer operation consists of exactly 8 clock low-to-high
pulses, and for pulse index `i` (0..7) the data line is set, between the
clock-low write and the clock-high write of that pulse, to bit `7 - i` of
`v` — high if the bit is set, low if clear (MSB first).  Holds for both the
runtime-pin tier and the compile-time-pin tier. -/
theorem claim_C1_transfer_is_msb_first_pulses
    (s : SimpleSpiInterface) (f : SimpleSpiFastInterface) (v : Nat) :
    s.transfer v = msbFirstPulses s.mClockPin s.mDataPin v
      ∧ f.transfer v = msbFirstPulses f.clockPinT f.dataPinT v :=
  ⟨rfl, shiftOutFast_eq_msbFirstPulses f v⟩

/-- C2: for every operation of the common operation set and every input
value, the compile-time-pinned fast tier emits bit-for-bit the same sequence
of pin-mode and pin-level writes as the runtime-pin tier configured with the
same pin triple. -/
theorem claim_C2_fast_tier_bit_for_bit_equal
    (latchPin dataPin clockPin : Nat) (op : SpiOp) :
    (SimpleSpiFastInterface.mk latchPin dataPin clockPin).opTrace op
      = (SimpleSpiInterface.mk latchPin dataPin clockPin).opTrace op := by
  cases op <;>
    simp [SimpleSpiFastInterface.opTrace, SimpleSpiInterface.opTrace,
      SimpleSpiFastInterface.begin, SimpleSpiInterface.begin,
      SimpleSpiFastInterface.endOp, SimpleSpiInterface.endOp,
      SimpleSpiFastInterface.beginTransaction, SimpleSpiInterface.beginTransaction,
      SimpleSpiFastInterface.endTransaction, SimpleSpiInterface.endTransaction,
      SimpleSpiFastInterface.transfer, SimpleSpiInterface.transfer,
      SimpleSpiFastInterface.transfer16, SimpleSpiInterface.transfer16,
      SimpleSpiFastInterface.send8, SimpleSpiInterface.send8,
      SimpleSpiFastInterface.send16, SimpleSpiInterface.send16,
      SimpleSpiFastInterface.send16two, SimpleSpiInterface.send16two,
      shiftOutFast_eq_msbFirstPulses, shiftOut]

/-- C3: for every 16-bit value `v`, `transfer16(v)` emits exactly the
pin-write sequence of `transfer(v >> 8)` followed by the pin-write sequence
of `transfer(v & 0xFF)`, on both tiers. -/
theorem claim_C3_transfer16_is_two_transfers
    (s : SimpleSpiInterface) (f : SimpleSpiFastInterface) (v : Nat)
    (hv : v < 65536) :
    s.transfer16 v = s.transfer (v >>> 8) ++ s.transfer (v &&& 0xff)
      ∧ f.transfer16 v = f.transfer (v >>> 8) ++ f.transfer (v &&& 0xff) := by
  constructor <;>
    simp [SimpleSpiInterface.transfer16, SimpleSpiInterface.transfer,
      SimpleSpiFastInterface.transfer16, SimpleSpiFastInterface.transfer,
      msb_extract_eq v hv]

/-- Witness for C3 at `v = 0x1234` with concrete pin triples. -/
theorem claim_C3_transfer16_is_two_transfers_witness :
    0x1234 < 65536
      ∧ ((SimpleSpiInterface.mk 1 2 3).transfer16 0x1234
            = (SimpleSpiInterface.mk 1 2 3).transfer (0x1234 >>> 8)
              ++ (SimpleSpiInterface.mk 1 2 3).transfer (0x1234 &&& 0xff)
          ∧ (SimpleSpiFastInterface.mk 4 5 6).transfer16 0x1234
            = (SimpleSpiFastInterface.mk 4 5 6).transfer (0x1234 >>> 8)
              ++ (SimpleSpiFastInterface.mk 4 5 6).transfer (0x1234 &&& 0xff)) :=
  ⟨by decide,
    claim_C3_transfer16_is_two_transfers
      (SimpleSpiInterface.mk 1 2 3) (SimpleSpiFastInterface.mk 4 5 6)
      0x1234 (by decide)⟩

/-- C4: for every 8-bit value `v`, `send8(v)` emits exactly one latch-low
write, then the full `transfer(v)` sequence, then one latch-high write —
with no clock or data writes before the latch goes low or after it goes
high.  Holds for both tiers. -/
theorem claim_C4_send8_framing
    (s : SimpleSpiInterface) (f : SimpleSpiFastInterface) (v : Nat) :
    s.send8 v
        = Event.write s.mLatchPin Level.low
            :: (s.transfer v ++ [Event.write s.mLatchPin Level.high])
      ∧ f.send8 v
        = Event.write f.latchPinT Level.low
            :: (f.transfer v ++ [Event.write f.latchPinT Level.high]) := by
  constructor <;>
    simp [SimpleSpiInterface.send8, SimpleSpiFastInterface.send8,
      SimpleSpiInterface.beginTransaction, SimpleSpiFastInterface.beginTransaction,
      SimpleSpiInterface.endTransaction, SimpleSpiFastInterface.endTransaction]

/-- C5: for every pair of 8-bit values `(msb, lsb)`, the two-argument
`send16(msb, lsb)` emits exactly the same pin-write sequence as the
one-argument `send16((msb << 8) | lsb)`.  Holds for both tiers. -/
theorem claim_C5_send16_two_arg_form
    (s : SimpleSpiInterface) (f : SimpleSpiFastInterface) (msb lsb : Nat)
    (hm : msb < 256) (hl : lsb < 256) :
    s.send16two msb lsb = s.send16 ((msb <<< 8) ||| lsb)
      ∧ f.send16two msb lsb = f.send16 ((msb <<< 8) ||| lsb) := by
  constructor <;>
    simp [SimpleSpiInterface.send16two, SimpleSpiInterface.send16,
      SimpleSpiInterface.transfer16,
      SimpleSpiFastInterface.send16two, SimpleSpiFastInterface.send16,
      SimpleSpiFastInterface.transfer16,
      or_extract_msb msb lsb hm hl, or_extract_lsb msb lsb hl,
      List.append_assoc]

/-- Witness for C5 at `(msb, lsb) = (0x12, 0x34)` with concrete pins. -/
theorem claim_C5_send16_two_arg_form_witness :
    0x12 < 256 ∧ 0x34 < 256
      ∧ ((SimpleSpiInterface.mk 1 2 3).send16two 0x12 0x34
            = (SimpleSpiInterface.mk 1 2 3).send16 ((0x12 <<< 8) ||| 0x34)
          ∧ (SimpleSpiFastInterface.mk 4 5 6).send16two 0x12 0x34
            = (SimpleSpiFastInterface.mk 4 5 6).send16 ((0x12 <<< 8) ||| 0x34)) :=
  ⟨by decide, by decide,
    claim_C5_send16_two_arg_form
      (SimpleSpiInterface.mk 1 2 3) (SimpleSpiFastInterface.mk 4 5 6)
      0x12 0x34 (by decide) (by decide)⟩

/-- A byte shift-out changes no pin direction and, when the latch pin is
distinct from the data and clock pins, leaves the latch level alone. -/
lemma msbFirstPulses_frame (clockPin dataPin latchPin v : Nat) (ps : PinState)
    (hd : latchPin ≠ dataPin) (hc : latchPin ≠ clockPin) :
    (∀ q, (applyTrace ps (msbFirstPulses clockPin dataPin v)).mode q = ps.mode q)
      ∧ (applyTrace ps (msbFirstPulses clockPin dataPin v)).level latchPin
          = ps.level latchPin := by
  constructor
  · intro q
    apply applyTrace_mode_of_writes
    intro e he p dd
    rcases mem_msbFirstPulses _ _ _ e he with ⟨l, h | h⟩ <;> simp [h]
  · apply applyTrace_level_of_not_written
    intro l hmem
    rcases mem_msbFirstPulses _ _ _ _ hmem with ⟨l2, h | h⟩
    · exact hd (by injection h)
    · exact hc (by injection h)

/-- C6: for every 8-bit value `v`, `transfer(v)` writes only to the data pin
and the clock pin: every emitted event is a level write to one of those two
pins, no pin direction changes, and (the latch pin being distinct from the
data and clock pins) the latch line's level is unchanged.  Holds for both
tiers. -/
theorem claim_C6_transfer_frame
    (s : SimpleSpiInterface) (f : SimpleSpiFastInterface) (v : Nat)
    (ps : PinState)
    (hsd : s.mLatchPin ≠ s.mDataPin) (hsc : s.mLatchPin ≠ s.mClockPin)
    (hfd : f.latchPinT ≠ f.dataPinT) (hfc : f.latchPinT ≠ f.clockPinT) :
    (∀ e ∈ s.transfer v, ∃ l,
        e = Event.write s.mDataPin l ∨ e = Event.write s.mClockPin l)
      ∧ (∀ q, (applyTrace ps (s.transfer v)).mode q = ps.mode q)
      ∧ (applyTrace ps (s.transfer v)).level s.mLatchPin = ps.level s.mLatchPin
      ∧ (∀ e ∈ f.transfer v, ∃ l,
          e = Event.write f.dataPinT l ∨ e = Event.write f.clockPinT l)
      ∧ (∀ q, (applyTrace ps (f.transfer v)).mode q = ps.mode q)
      ∧ (applyTrace ps (f.transfer v)).level f.latchPinT
          = ps.level f.latchPinT := by
  have hsTr : s.transfer v = msbFirstPulses s.mClockPin s.mDataPin v := rfl
  have hfTr : f.transfer v = msbFirstPulses f.clockPinT f.dataPinT v :=
    shiftOutFast_eq_msbFirstPulses f v
  have hsF := msbFirstPulses_frame s.mClockPin s.mDataPin s.mLatchPin v ps hsd hsc
  have hfF := msbFirstPulses_frame f.clockPinT f.dataPinT f.latchPinT v ps hfd hfc
  refine ⟨?_, (hsTr ▸ hsF).1, (hsTr ▸ hsF).2, ?_, (hfTr ▸ hfF).1, (hfTr ▸ hfF).2⟩
  · intro e he
    exact mem_msbFirstPulses _ _ _ e (hsTr ▸ he)
  · intro e he
    exact mem_msbFirstPulses _ _ _ e (hfTr ▸ he)

/-- Witness for C6 with pin triples `(1,2,3)` and `(4,5,6)`, value `0x11`,
and a concrete starting pin state. -/
theorem claim_C6_transfer_frame_witness :
    (1 : Nat) ≠ 2 ∧ (1 : Nat) ≠ 3 ∧ (4 : Nat) ≠ 5 ∧ (4 : Nat) ≠ 6
      ∧ ((∀ e ∈ (SimpleSpiInterface.mk 1 2 3).transfer 0x11, ∃ l,
            e = Event.write 2 l ∨ e = Event.write 3 l)
        ∧ (∀ q, (applyTrace (PinState.mk (fun _ => Level.low) (fun _ => PinDir.input))
              ((SimpleSpiInterface.mk 1 2 3).transfer 0x11)).mode q = PinDir.input)
        ∧ (applyTrace (PinState.mk (fun _ => Level.low) (fun _ => PinDir.input))
              ((SimpleSpiInterface.mk 1 2 3).transfer 0x11)).level 1 = Level.low
        ∧ (∀ e ∈ (SimpleSpiFastInterface.mk 4 5 6).transfer 0x11, ∃ l,
            e = Event.write 5 l ∨ e = Event.write 6 l)
        ∧ (∀ q, (applyTrace (PinState.mk (fun _ => Level.low) (fun _ => PinDir.input))
              ((SimpleSpiFastInterface.mk 4 5 6).transfer 0x11)).mode q = PinDir.input)
        ∧ (applyTrace (PinState.mk (fun _ => Level.low) (fun _ => PinDir.input))
              ((SimpleSpiFastInterface.mk 4 5 6).transfer 0x11)).level 4 = Level.low) :=
  ⟨by decide, by decide, by decide, by decide,
    claim_C6_transfer_frame
      (SimpleSpiInterface.mk 1 2 3) (SimpleSpiFastInterface.mk 4 5 6) 0x11
      (PinState.mk (fun _ => Level.low) (fun _ => PinDir.input))
      (by decide) (by decide) (by decide) (by decide)⟩

/-- Setting the three pins to OUTPUT is an overwrite, so doing it twice is
the same as doing it once. -/
lemma applyTrace_outputs_idem (lp dp cp : Nat) (ps : PinState) :
    applyTrace
        (applyTrace ps
          [Event.setMode lp PinDir.output, Event.setMode dp PinDir.output,
           Event.setMode cp PinDir.output])
        [Event.setMode lp PinDir.output, Event.setMode dp PinDir.output,
         Event.setMode cp PinDir.output]
      = applyTrace ps
          [Event.setMode lp PinDir.output, Event.setMode dp PinDir.output,
           Event.setMode cp PinDir.output] := by
  ext q
  · rfl
  · simp only [applyTrace, applyEvent]
    split_ifs <;> rfl

/-- After setting the three pins to OUTPUT, each of them reads OUTPUT, even
when pin numbers coincide. -/
lemma applyTrace_outputs_mode (lp dp cp q : Nat) (ps : PinState)
    (hq : q = lp ∨ q = dp ∨ q = cp) :
    (applyTrace ps
        [Event.setMode lp PinDir.output, Event.setMode dp PinDir.output,
         Event.setMode cp PinDir.output]).mode q = PinDir.output := by
  simp only [applyTrace, applyEvent]
  rcases hq with rfl | rfl | rfl <;> split_ifs <;> simp_all

/-- C7: `begin()` sets the mode of all three pins (latch, data, clock) to
OUTPUT, and it is idempotent: from every starting pin state, calling it
twice leaves the pin state identical to calling it once.  Holds for both
tiers. -/
theorem claim_C7_begin_outputs_idempotent
    (s : SimpleSpiInterface) (f : SimpleSpiFastInterface) (ps : PinState) :
    ((applyTrace ps s.begin).mode s.mLatchPin = PinDir.output
      ∧ (applyTrace ps s.begin).mode s.mDataPin = PinDir.output
      ∧ (applyTrace ps s.begin).mode s.mClockPin = PinDir.output
      ∧ applyTrace (applyTrace ps s.begin) s.begin = applyTrace ps s.begin)
    ∧ ((applyTrace ps f.begin).mode f.latchPinT = PinDir.output
      ∧ (applyTrace ps f.begin).mode f.dataPinT = PinDir.output
      ∧ (applyTrace ps f.begin).mode f.clockPinT = PinDir.output
      ∧ applyTrace (applyTrace ps f.begin) f.begin = applyTrace ps f.begin) :=
  ⟨⟨applyTrace_outputs_mode _ _ _ _ ps (Or.inl rfl),
    applyTrace_outputs_mode _ _ _ _ ps (Or.inr (Or.inl rfl)),
    applyTrace_outputs_mode _ _ _ _ ps (Or.inr (Or.inr rfl)),
    applyTrace_outputs_idem _ _ _ ps⟩,
   ⟨applyTrace_outputs_mode _ _ _ _ ps (Or.inl rfl),
    applyTrace_outputs_mode _ _ _ _ ps (Or.inr (Or.inl rfl)),
    applyTrace_outputs_mode _ _ _ _ ps (Or.inr (Or.inr rfl)),
    applyTrace_outputs_idem _ _ _ ps⟩⟩

/-- C9: the pin assignment is fixed at construction: running any operation
of the common operation set leaves the stored pin triple of the transmitter
unchanged (the C++ methods are `const` and the pin members are `const`). -/
theorem claim_C9_pin_triple_invariant (m : Machine) (op : SpiOp) :
    (m.runOp op).1.spi = m.spi := rfl

/-- The 8 pulses of a byte shift-out, listed bit by bit. -/
lemma msbFirstPulses_eq_bits (clockPin dataPin v : Nat) :
    msbFirstPulses clockPin dataPin v
      = ([v.testBit 7, v.testBit 6, v.testBit 5, v.testBit 4,
          v.testBit 3, v.testBit 2, v.testBit 1, v.testBit 0].map
            (clockPulse clockPin dataPin)).flatten := by
  simp [msbFirstPulses, List.range_succ]

/-- C8: `send16(0x1234)` emits a single latch-low write, then the 16-bit
MSB-first pulse sequence for the bits `0001 0010 0011 0100`, then a single
latch-high write — one latch-low/latch-high cycle around the whole word,
not one per byte.  Holds for both tiers. -/
theorem claim_C8_send16_word_single_latch_cycle
    (latchPin dataPin clockPin : Nat) :
    (SimpleSpiInterface.mk latchPin dataPin clockPin).send16 0x1234
        = Event.write latchPin Level.low
            :: (([false, false, false, true, false, false, true, false,
                  false, false, true, true, false, true, false, false].map
                    (clockPulse clockPin dataPin)).flatten
                ++ [Event.write latchPin Level.high])
      ∧ (SimpleSpiFastInterface.mk latchPin dataPin clockPin).send16 0x1234
        = Event.write latchPin Level.low
            :: (([false, false, false, true, false, false, true, false,
                  false, false, true, true, false, true, false, false].map
                    (clockPulse clockPin dataPin)).flatten
                ++ [Event.write latchPin Level.high]) := by
  have hm : ((0x1234 : Nat) &&& 0xff00) >>> 8 = 0x12 := by decide
  have hl : ((0x1234 : Nat) &&& 0xff) = 0x34 := by decide
  constructor <;>
    simp [SimpleSpiInterface.send16, SimpleSpiInterface.transfer16,
      SimpleSpiInterface.beginTransaction, SimpleSpiInterface.endTransaction,
      SimpleSpiFastInterface.send16, SimpleSpiFastInterface.transfer16,
      SimpleSpiFastInterface.beginTransaction, SimpleSpiFastInterface.endTransaction,
      shiftOut, shiftOutFast_eq_msbFirstPulses, hm, hl,
      msbFirstPulses_eq_bits, Nat.testBit]

/-- The most recent clock write of a transaction that ends with a latch-high
write is still HIGH once the body's most recent clock write is HIGH, whether
or not the latch pin coincides with the clock pin. -/
lemma lastWriteTo_clock_framed (clockPin latchPin : Nat)
    (pre mid : List Event) (hmid : lastWriteTo clockPin mid = some Level.high) :
    lastWriteTo clockPin ((pre ++ mid) ++ [Event.write latchPin Level.high])
      = some Level.high := by
  by_cases h : latchPin = clockPin
  · exact lastWriteTo_append_some _ _ _ _ (by simp [lastWriteTo, h])
  · rw [lastWriteTo_append_none _ _ _ (by simp [lastWriteTo, h])]
    exact lastWriteTo_append_some _ _ _ _ hmid

/-- C10: at the end of the pin-write sequence emitted by `transfer`,
`transfer16`, `send8` or `send16` (either overload) of the fast software
tier, the most recent write to the clock pin is HIGH: each bit's emission
ends with a clock-high write, so the clock line is left high after the
operation. -/
theorem claim_C10_clock_left_high
    (f : SimpleSpiFastInterface) (v w msb lsb : Nat) :
    lastWriteTo f.clockPinT (f.transfer v) = some Level.high
      ∧ lastWriteTo f.clockPinT (f.transfer16 w) = some Level.high
      ∧ lastWriteTo f.clockPinT (f.send8 v) = some Level.high
      ∧ lastWriteTo f.clockPinT (f.send16 w) = some Level.high
      ∧ lastWriteTo f.clockPinT (f.send16two msb lsb) = some Level.high := by
  have hshift : ∀ u : Nat,
      lastWriteTo f.clockPinT (f.shiftOutFast u) = some Level.high := by
    intro u
    rw [shiftOutFast_eq_msbFirstPulses]
    exact lastWriteTo_clock_msbFirstPulses _ _ _
  have htr : ∀ u : Nat,
      lastWriteTo f.clockPinT (f.transfer u) = some Level.high := fun u => hshift u
  have htr16 : ∀ u : Nat,
      lastWriteTo f.clockPinT (f.transfer16 u) = some Level.high := by
    intro u
    exact lastWriteTo_append_some _ _ _ _ (hshift _)
  refine ⟨htr v, htr16 w, ?_, ?_, ?_⟩
  · exact lastWriteTo_clock_framed _ _ _ _ (htr v)
  · exact lastWriteTo_clock_framed _ _ _ _ (htr16 w)
  · show lastWriteTo f.clockPinT
        ((f.beginTransaction ++ f.shiftOutFast msb ++ f.shiftOutFast lsb)
          ++ f.endTransaction) = some Level.high
    exact lastWriteTo_clock_framed _ _ _ _ (hshift lsb)
